import Mathlib

/-!
Verification development for the opencomputer session/sandbox service
(`src/state.rs`, `src/http_server.rs`).

The Rust code is shallowly embedded: sessions are records, the registry
(`HashMap<String, Session>` under a lock) is an association list keyed by
session id, `Instant` timestamps are natural numbers (seconds), ports and
pids are natural numbers (`u16` overflow is made explicit with `% 65536`),
and every handler becomes a pure function from registry state (plus the
request and oracles for the OS effects) to an `Except`-style result and the
successor registry state.
-/

namespace OpenComputer

/-! ### Association lists standing in for `HashMap<String, _>` -/

/-- Lookup in an association list: the model for `HashMap::get`. -/
def lookupA {α : Type} : List (String × α) → String → Option α
  | [], _ => none
  | (k, v) :: rest, key => if k = key then some v else lookupA rest key

/-- Insert-or-replace: the model for `HashMap::insert`. -/
def insertA {α : Type} : List (String × α) → String → α → List (String × α)
  | [], key, v => [(key, v)]
  | (k, w) :: rest, key, v =>
      if k = key then (key, v) :: rest else (k, w) :: insertA rest key v

/-- In-place update of the entry at `key`: the model for `HashMap::get_mut`
followed by field mutation. -/
def updateA {α : Type} : List (String × α) → String → (α → α) → List (String × α)
  | [], _, _ => []
  | (k, v) :: rest, key, f =>
      if k = key then (k, f v) :: rest else (k, v) :: updateA rest key f

/-- Removal of the entry at `key`: the model for `HashMap::remove`. -/
def removeA {α : Type} : List (String × α) → String → List (String × α)
  | [], _ => []
  | (k, v) :: rest, key => if k = key then rest else (k, v) :: removeA rest key

theorem lookupA_insertA_self {α : Type} (l : List (String × α)) (k : String) (v : α) :
    lookupA (insertA l k v) k = some v := by
  induction l with
  | nil => simp [insertA, lookupA]
  | cons p rest ih =>
      obtain ⟨k', v'⟩ := p
      by_cases h : k' = k <;> simp [insertA, lookupA, h, ih]

theorem lookupA_insertA_ne {α : Type} (l : List (String × α)) (k k' : String) (v : α)
    (h : k' ≠ k) : lookupA (insertA l k v) k' = lookupA l k' := by
  induction l with
  | nil => simp [insertA, lookupA, Ne.symm h]
  | cons p rest ih =>
      obtain ⟨k0, v0⟩ := p
      by_cases hk : k0 = k
      · subst hk
        simp [insertA, lookupA, Ne.symm h]
      · simp [insertA, lookupA, hk, ih]

theorem lookupA_updateA_self {α : Type} (l : List (String × α)) (k : String) (f : α → α) :
    lookupA (updateA l k f) k = (lookupA l k).map f := by
  induction l with
  | nil => simp [updateA, lookupA]
  | cons p rest ih =>
      obtain ⟨k', v'⟩ := p
      by_cases h : k' = k <;> simp [updateA, lookupA, h, ih]

theorem lookupA_updateA_ne {α : Type} (l : List (String × α)) (k k' : String) (f : α → α)
    (h : k' ≠ k) : lookupA (updateA l k f) k' = lookupA l k' := by
  induction l with
  | nil => simp [updateA, lookupA]
  | cons p rest ih =>
      obtain ⟨k0, v0⟩ := p
      by_cases hk : k0 = k
      · subst hk
        simp [updateA, lookupA, Ne.symm h]
      · simp [updateA, lookupA, hk, ih]

theorem mem_of_lookupA {α : Type} (l : List (String × α)) (k : String) (v : α)
    (h : lookupA l k = some v) : (k, v) ∈ l := by
  induction l with
  | nil => simp [lookupA] at h
  | cons p rest ih =>
      obtain ⟨k0, v0⟩ := p
      by_cases hk : k0 = k
      · subst hk
        simp [lookupA] at h
        simp [h]
      · simp [lookupA, hk] at h
        exact List.mem_cons_of_mem _ (ih h)

theorem mem_insertA {α : Type} (l : List (String × α)) (k : String) (v : α) (p : String × α)
    (h : p ∈ insertA l k v) : p = (k, v) ∨ p ∈ l := by
  induction l with
  | nil => simpa [insertA] using h
  | cons q rest ih =>
      obtain ⟨k0, v0⟩ := q
      by_cases hk : k0 = k
      · subst hk
        simp [insertA] at h
        rcases h with h | h
        · exact Or.inl h
        · exact Or.inr (List.mem_cons_of_mem _ h)
      · simp [insertA, hk] at h
        rcases h with h | h
        · exact Or.inr (by simp [h])
        · rcases ih h with h' | h'
          · exact Or.inl h'
          · exact Or.inr (List.mem_cons_of_mem _ h')

theorem mem_updateA {α : Type} (l : List (String × α)) (k : String) (f : α → α) (p : String × α)
    (h : p ∈ updateA l k f) : p ∈ l ∨ ∃ v, (k, v) ∈ l ∧ p = (k, f v) := by
  induction l with
  | nil => simp [updateA] at h
  | cons q rest ih =>
      obtain ⟨k0, v0⟩ := q
      by_cases hk : k0 = k
      · subst hk
        simp [updateA] at h
        rcases h with h | h
        · exact Or.inr ⟨v0, by simp, h⟩
        · exact Or.inl (List.mem_cons_of_mem _ h)
      · simp [updateA, hk] at h
        rcases h with h | h
        · exact Or.inl (by simp [h])
        · rcases ih h with h' | ⟨v, hv, hp⟩
          · exact Or.inl (List.mem_cons_of_mem _ h')
          · exact Or.inr ⟨v, List.mem_cons_of_mem _ hv, hp⟩

theorem mem_removeA {α : Type} (l : List (String × α)) (k : String) (p : String × α)
    (h : p ∈ removeA l k) : p ∈ l := by
  induction l with
  | nil => simp [removeA] at h
  | cons q rest ih =>
      obtain ⟨k0, v0⟩ := q
      by_cases hk : k0 = k
      · subst hk
        simp [removeA] at h
        exact List.mem_cons_of_mem _ h
      · simp [removeA, hk] at h
        rcases h with h | h
        · simp [h]
        · exact List.mem_cons_of_mem _ (ih h)

theorem lookupA_eq_none_of_notMem {α : Type} (l : List (String × α)) (k : String)
    (h : k ∉ l.map Prod.fst) : lookupA l k = none := by
  induction l with
  | nil => simp [lookupA]
  | cons p rest ih =>
      obtain ⟨k0, v0⟩ := p
      by_cases hk : k0 = k
      · exact absurd (by simp [hk]) h
      · have h' : k ∉ rest.map Prod.fst := fun hm => h (by simp [hm])
        simp [lookupA, hk, ih h']

/-! ### Data model from `src/state.rs` -/

/-- `const PORT_RANGE_START: u16 = 10000` -/
def PORT_RANGE_START : Nat := 10000

/-- `pub const SESSION_TTL_SECS: u64 = 300` -/
def SESSION_TTL_SECS : Nat := 300

/-- `enum SessionStatus { Running, Idle, Terminating }` -/
inductive SessionStatus where
  | Running
  | Idle
  | Terminating
deriving DecidableEq, Repr

/-- The lowercase wire string for a status, as produced by
`format!("{:?}", status).to_lowercase()` together with serde's
`rename_all = "lowercase"`. -/
def statusStr : SessionStatus → String
  | .Running => "running"
  | .Idle => "idle"
  | .Terminating => "terminating"

/-- Environment mapping (`HashMap<String, String>`). -/
abbrev Env := List (String × String)

/-- `HashMap::extend`: every request entry is inserted over the base map. -/
def extendEnv (base : Env) (req : Env) : Env :=
  req.foldl (fun acc p => insertA acc p.1 p.2) base

/-- `struct Session` from `src/state.rs`.  `Instant` timestamps are seconds
as naturals; `PathBuf` is a string; `Vec<u16>`/`Vec<u32>` are lists of
naturals. -/
structure Session where
  id : String
  sandbox_root : String
  env : Env
  cwd : String
  created_at : Nat
  last_used : Nat
  preview_url : Option String
  ports : List Nat
  status : SessionStatus
  background_pids : List Nat
deriving DecidableEq, Repr

/-- The session map guarded by the registry lock
(`Arc<RwLock<HashMap<String, Session>>>`). -/
abbrev Registry := List (String × Session)

/-- `AppState::allocate_port`: `self.next_port.fetch_add(1, Ordering::Relaxed)`.
`fetch_add` on an `AtomicU16` returns the previous value and wraps on
overflow, hence the explicit `% 65536` on the stored successor. -/
def allocate_port (next_port : Nat) : Nat × Nat :=
  (next_port, (next_port + 1) % 65536)

/-- Value of the `next_port` counter after `k` calls to `allocate_port`,
starting from `AppState::new`'s initial value `PORT_RANGE_START`.  The
port returned by call `k` (0-based) is `(allocate_port (portCounterAfter k)).1`,
i.e. `portCounterAfter k` itself. -/
def portCounterAfter : Nat → Nat
  | 0 => PORT_RANGE_START
  | k + 1 => (allocate_port (portCounterAfter k)).2

theorem portCounterAfter_eq (k : Nat) : portCounterAfter k = (10000 + k) % 65536 := by
  induction k with
  | zero => simp [portCounterAfter, PORT_RANGE_START]
  | succ k ih =>
      simp [portCounterAfter, allocate_port, ih]
      omega

/-! ### Request types and defaults from `src/http_server.rs` -/

/-- `fn default_time() -> u64 { 300000 }` -/
def default_time : Nat := 300000

/-- `fn default_mem() -> u64 { 2097152 }` -/
def default_mem : Nat := 2097152

/-- `fn default_nofile() -> u64 { 256 }` -/
def default_nofile : Nat := 256

/-- `fn default_fsize() -> u64 { 1048576 }` -/
def default_fsize : Nat := 1048576

/-- `fn default_cwd() -> String { "/".to_string() }` -/
def default_cwd : String := "/"

/-- `fn default_port() -> u16 { 5173 }` -/
def default_port : Nat := 5173

/-- `RunConfig` handed to the sandbox layer. -/
structure RunConfig where
  command : List String
  time_ms : Nat
  mem_kb : Nat
  fsize_kb : Nat
  nofile : Nat
  env : Env
  cwd : String
deriving DecidableEq, Repr

/-- `struct RunRequest` (fields after serde defaulting). -/
structure RunRequest where
  command : List String
  time : Nat := default_time
  mem : Nat := default_mem
  fsize : Nat := default_fsize
  nofile : Nat := default_nofile
  env : Env := []
  cwd : String := default_cwd
deriving DecidableEq, Repr

/-- `struct BackgroundRunRequest` (fields after serde defaulting). -/
structure BackgroundRunRequest where
  command : List String
  port : Nat := default_port
  env : Env := []
  cwd : String := default_cwd
deriving DecidableEq, Repr

/-- `struct SessionInfo` as serialized back to clients. -/
structure SessionInfo where
  id : String
  env : Env
  cwd : String
  age_secs : Nat
  idle_secs : Nat
  preview_url : Option String
  ports : List Nat
  status : String
deriving DecidableEq, Repr

/-- Build a `SessionInfo` from a session at time `now`
(`Instant::duration_since` saturates at zero, as does `Nat` subtraction). -/
def sessionInfo (s : Session) (now : Nat) : SessionInfo :=
  { id := s.id
    env := s.env
    cwd := s.cwd
    age_secs := now - s.created_at
    idle_secs := now - s.last_used
    preview_url := s.preview_url
    ports := s.ports
    status := statusStr s.status }

/-- Handler-level error: HTTP status code plus message. -/
abbrev HErr := Nat × String

/-- Touch a session's `last_used` field (`session.last_used = Instant::now()`). -/
def touchSession (reg : Registry) (id : String) (now : Nat) : Registry :=
  updateA reg id (fun s => { s with last_used := now })

/-! ### Handlers from `src/http_server.rs`

Each handler is a pure function of the registry snapshot plus the request.
Effects the code obtains from the OS (fresh uuid, sandbox path, spawned
pid, signal delivery, filesystem contents, `Instant::now()`) enter as
explicit arguments (oracles).  Each returns its HTTP-level result together
with the registry state after the handler's critical sections. -/

/-- `create_session`: builds the session record (status `Running`,
`cwd = "/"`, empty ports and pids, preview URL derived from the configured
domain) and inserts it under the fresh id. -/
def create_session (reg : Registry) (session_id sandbox_root : String) (reqEnv : Env)
    (preview_domain : Option String) (now : Nat) :
    (String × Option String) × Registry :=
  let preview_url := preview_domain.map (fun d => "https://" ++ session_id ++ "." ++ d)
  let session : Session :=
    { id := session_id
      sandbox_root := sandbox_root
      env := reqEnv
      cwd := "/"
      created_at := now
      last_used := now
      preview_url := preview_url
      ports := []
      status := SessionStatus.Running
      background_pids := [] }
  ((session_id, preview_url), insertA reg session_id session)

/-- `list_sessions`: read lock only; maps every session to its
`SessionInfo` and leaves the registry untouched. -/
def list_sessions (reg : Registry) (now : Nat) : List SessionInfo × Registry :=
  (reg.map (fun p => sessionInfo p.2 now), reg)

/-- `get_session`: read lock only; 404 when the id is unknown, otherwise
the `SessionInfo` snapshot.  The registry is not written. -/
def get_session (reg : Registry) (id : String) (now : Nat) :
    Except HErr SessionInfo × Registry :=
  match lookupA reg id with
  | none => (Except.error (404, "Not found"), reg)
  | some s => (Except.ok (sessionInfo s now), reg)

/-- `delete_session`: removes the entry (background kill and sandbox
destruction happen on a detached blocking task and do not touch the
registry); 404 when absent. -/
def delete_session (reg : Registry) (id : String) : Except HErr Unit × Registry :=
  match lookupA reg id with
  | none => (Except.error (404, "Not found"), reg)
  | some _ => (Except.ok (), removeA reg id)

/-- `set_env`: extends the session env with the request env and touches
`last_used`. -/
def set_env (reg : Registry) (id : String) (e : Env) (now : Nat) :
    Except HErr Unit × Registry :=
  match lookupA reg id with
  | none => (Except.error (404, "Session not found"), reg)
  | some _ =>
      (Except.ok (),
       updateA reg id (fun s => { s with env := extendEnv s.env e, last_used := now }))

/-- `set_cwd`: replaces the session cwd and touches `last_used`. -/
def set_cwd (reg : Registry) (id : String) (c : String) (now : Nat) :
    Except HErr Unit × Registry :=
  match lookupA reg id with
  | none => (Except.error (404, "Session not found"), reg)
  | some _ =>
      (Except.ok (), updateA reg id (fun s => { s with cwd := c, last_used := now }))

/-- `let cwd = if req.cwd != "/" { req.cwd } else { cwd };` shared by
`run_in_session` and `run_background`. -/
def effective_cwd (reqCwd sessionCwd : String) : String :=
  if reqCwd ≠ "/" then reqCwd else sessionCwd

/-- `run_in_session`: phase 1 extracts root/env/cwd and touches
`last_used`; the value handed to the sandbox layer is the merged
`RunConfig`, which the model returns in place of the child's `RunResult`. -/
def run_in_session (reg : Registry) (id : String) (req : RunRequest) (now : Nat) :
    Except HErr (String × RunConfig) × Registry :=
  match lookupA reg id with
  | none => (Except.error (404, "Session not found"), reg)
  | some s =>
      let config : RunConfig :=
        { command := req.command
          time_ms := req.time
          mem_kb := req.mem
          fsize_kb := req.fsize
          nofile := req.nofile
          env := extendEnv s.env req.env
          cwd := effective_cwd req.cwd s.cwd }
      (Except.ok (s.sandbox_root, config), touchSession reg id now)

/-- `run_oneshot`: no session lookup; the request maps directly to a
`RunConfig`. -/
def run_oneshot (req : RunRequest) : RunConfig :=
  { command := req.command
    time_ms := req.time
    mem_kb := req.mem
    fsize_kb := req.fsize
    nofile := req.nofile
    env := req.env
    cwd := req.cwd }

/-- Phase-3 writeback of `run_background`: if the session still exists,
push the pid and (if not already present) the port; otherwise do
nothing. -/
def bg_record (reg : Registry) (id : String) (pid port : Nat) : Registry :=
  match lookupA reg id with
  | none => reg
  | some _ =>
      updateA reg id (fun s =>
        { s with
          background_pids := s.background_pids ++ [pid]
          ports := if port ∈ s.ports then s.ports else s.ports ++ [port] })

/-- `run_background`.  Oracles: `next_port` is the current counter value,
`pid` the pid returned by `run_background_in_session`, and `interfere`
the registry mutation performed by concurrent handlers between the
blocking phase and the writeback (identity when nothing intervenes).
Returns `((pid, port, preview_url), config)`, the final registry, and the
new counter value. -/
def run_background (reg : Registry) (id : String) (req : BackgroundRunRequest)
    (now : Nat) (next_port : Nat) (pid : Nat) (interfere : Registry → Registry) :
    Except HErr ((Nat × Nat × Option String) × RunConfig) × Registry × Nat :=
  match lookupA reg id with
  | none => (Except.error (404, "Session not found"), reg, next_port)
  | some s =>
      let reg1 := touchSession reg id now
      let env0 := extendEnv s.env req.env
      let pn : Nat × Nat :=
        if req.port = 0 then allocate_port next_port else (req.port, next_port)
      let port := pn.1
      let env1 := insertA env0 "VITE_PORT" (toString port)
      let env2 := insertA env1 "PORT" (toString port)
      let config : RunConfig :=
        { command := req.command
          time_ms := 0
          mem_kb := 0
          fsize_kb := 0
          nofile := 0
          env := env2
          cwd := effective_cwd req.cwd s.cwd }
      let reg2 := interfere reg1
      (Except.ok ((pid, port, s.preview_url), config), bg_record reg2 id pid port, pn.2)

/-- `kill_background`.  Under the write lock: touch `last_used`, take the
pid list, clear `background_pids` and `ports`.  After releasing the lock,
SIGKILL is attempted on each prior pid; `killOk` is the oracle for
`nix::sys::signal::kill(..).is_ok()`.  Returns the killed subset and the
prior count. -/
def kill_background (reg : Registry) (id : String) (now : Nat) (killOk : Nat → Bool) :
    Except HErr (List Nat × Nat) × Registry :=
  match lookupA reg id with
  | none => (Except.error (404, "Session not found"), reg)
  | some s =>
      let reg' := updateA reg id (fun t =>
        { t with last_used := now, background_pids := [], ports := [] })
      (Except.ok (s.background_pids.filter killOk, s.background_pids.length), reg')

/-- `background_status`: read lock only; reports `(pid, alive)` for every
tracked pid plus the background log tail.  `alive` and `log` are oracles
for `is_process_alive` and `read_background_log`.  The registry is not
written. -/
def background_status (reg : Registry) (id : String) (alive : Nat → Bool) (log : String) :
    Except HErr (List (Nat × Bool) × String) × Registry :=
  match lookupA reg id with
  | none => (Except.error (404, "Session not found"), reg)
  | some s => (Except.ok (s.background_pids.map (fun p => (p, alive p)), log), reg)

/-- `cleanup_expired_sessions` (TTL reaper body): drop every session with
`now - last_used > SESSION_TTL_SECS`. -/
def cleanup_expired_sessions (reg : Registry) (now : Nat) : Registry :=
  reg.filter (fun p => ¬ (now - p.2.last_used > SESSION_TTL_SECS))

/-! ### Preview proxy (`preview_proxy` in `src/http_server.rs`) -/

/-- `str::strip_suffix`: `Some` of the text before `suffix` when the
string ends with `suffix`, `None` otherwise. -/
def strip_host_suffix (s suffix : String) : Option String :=
  if suffix.data.length ≤ s.data.length ∧
      s.data.drop (s.data.length - suffix.data.length) = suffix.data then
    some (String.mk (s.data.take (s.data.length - suffix.data.length)))
  else none

/-- Routing part of `preview_proxy`: 404 when no `preview_domain` is
configured, when the Host header does not end in `.<preview_domain>`, or
when the stripped prefix is no live session; otherwise touch `last_used`
and forward to the target `127.0.0.1:<port>` with `port` the first
registered port, defaulting to 5173. -/
def preview_proxy (preview_domain : Option String) (reg : Registry) (host : String)
    (now : Nat) : Except HErr (String × Nat) × Registry :=
  match preview_domain with
  | none => (Except.error (404, "Not found"), reg)
  | some d =>
      match strip_host_suffix host ("." ++ d) with
      | none => (Except.error (404, "Not found"), reg)
      | some session_id =>
          match lookupA reg session_id with
          | none =>
              (Except.error (404, "Session " ++ session_id ++ " not found"), reg)
          | some s =>
              let port := s.ports.headD 5173
              (Except.ok ("127.0.0.1:" ++ toString port, port),
               touchSession reg session_id now)

/-! ### Sandbox-rooted file operations

`src/sandbox.rs` is not among the provided sources; only its callers in
`src/http_server.rs` are.  The path handling below is therefore modelled
from the spec rather than translated from code. -/

/-- Modelled from the spec: path resolution for the missing
`sandbox.rs` file primitives — "All paths are resolved against `root`;
any resolution that escapes `root` (via `..` or absolute traversal) fails
with `PathEscape`."  Empty and `.` components are skipped, a normal
component pushes, and `..` pops; popping past the sandbox root is the
escape. -/
def resolve_components : List String → List String → Option (List String)
  | stack, [] => some stack.reverse
  | stack, c :: rest =>
      if c = "" ∨ c = "." then resolve_components stack rest
      else if c = ".." then
        match stack with
        | [] => none
        | _ :: stack' => resolve_components stack' rest
      else resolve_components (c :: stack) rest

/-- Split a character list at `/` separators (the structural equivalent of
`str::split('/')` on the request path). -/
def splitSlashAux : List Char → List Char → List String
  | [], acc => [String.mk acc.reverse]
  | c :: rest, acc =>
      if c = '/' then String.mk acc.reverse :: splitSlashAux rest []
      else splitSlashAux rest (c :: acc)

/-- Path components of a request path. -/
def splitPath (p : String) : List String :=
  splitSlashAux p.data []

/-- Modelled from the spec: resolve a request path against the sandbox
root, yielding the normalized component list under the root, or `none`
(the `PathEscape` failure) when the resolution escapes. -/
def resolve_in_sandbox (path : String) : Option (List String) :=
  resolve_components [] (splitPath path)

/-- File contents as byte lists. -/
abbrev FileData := List Nat

/-- Host filesystem oracle: absolute component path to file contents. -/
abbrev HostFS := List String → Option FileData

/-- A directory entry as returned by the sandbox listing primitive. -/
structure SandboxFileEntry where
  name : String
  path : String
  is_directory : Bool
  size : Nat
deriving DecidableEq, Repr

/-- Host directory-listing oracle. -/
abbrev HostLS := List String → Option (List SandboxFileEntry)

/-- Component form of a sandbox root path. -/
def root_components (root : String) : List String :=
  (root.splitOn "/").filter (fun c => c ≠ "")

/-- Modelled from the spec: `read_file_in_sandbox(root, rel)` — resolve
against the root, fail with `PathEscape` on escape, otherwise read the
file at the resolved location under the root. -/
def read_file_in_sandbox (hfs : HostFS) (root : String) (path : String) :
    Except String FileData :=
  match resolve_in_sandbox path with
  | none => Except.error "PathEscape"
  | some comps =>
      match hfs (root_components root ++ comps) with
      | none => Except.error "File not found"
      | some c => Except.ok c

/-- Modelled from the spec: `list_files_in_sandbox(root, rel)` with the
same root-relative resolution and `PathEscape` failure. -/
def list_files_in_sandbox (hls : HostLS) (root : String) (path : String) :
    Except String (List SandboxFileEntry) :=
  match resolve_in_sandbox path with
  | none => Except.error "PathEscape"
  | some comps =>
      match hls (root_components root ++ comps) with
      | none => Except.error "Directory not found"
      | some es => Except.ok es

/-- Modelled from the spec: `write_file_in_sandbox(root, rel, bytes)` —
the same resolution; on success the write lands under the root (the
mutated filesystem is outside the registry model). -/
def write_file_in_sandbox (root : String) (path : String) (content : FileData) :
    Except String Unit :=
  match resolve_in_sandbox path with
  | none => Except.error "PathEscape"
  | some _ => Except.ok ()

/-- `read_file` handler: phase 1 touches `last_used` and takes the root;
a sandbox error maps to 404. -/
def read_file (reg : Registry) (id : String) (path : String) (now : Nat) (hfs : HostFS) :
    Except HErr FileData × Registry :=
  match lookupA reg id with
  | none => (Except.error (404, "Session not found"), reg)
  | some s =>
      let reg' := touchSession reg id now
      match read_file_in_sandbox hfs s.sandbox_root path with
      | Except.error e => (Except.error (404, e), reg')
      | Except.ok c => (Except.ok c, reg')

/-- `list_files` handler: phase 1 touches `last_used`; a sandbox error
maps to 404. -/
def list_files (reg : Registry) (id : String) (path : String) (now : Nat) (hls : HostLS) :
    Except HErr (List SandboxFileEntry) × Registry :=
  match lookupA reg id with
  | none => (Except.error (404, "Session not found"), reg)
  | some s =>
      let reg' := touchSession reg id now
      match list_files_in_sandbox hls s.sandbox_root path with
      | Except.error e => (Except.error (404, e), reg')
      | Except.ok es => (Except.ok es, reg')

/-- `write_file` handler: phase 1 touches `last_used`; a sandbox error
maps to 500 (`INTERNAL_SERVER_ERROR`), success to `{success: true}`. -/
def write_file (reg : Registry) (id : String) (path : String) (content : FileData)
    (now : Nat) : Except HErr Bool × Registry :=
  match lookupA reg id with
  | none => (Except.error (404, "Session not found"), reg)
  | some s =>
      let reg' := touchSession reg id now
      match write_file_in_sandbox s.sandbox_root path content with
      | Except.error e => (Except.error (500, e), reg')
      | Except.ok _ => (Except.ok true, reg')

/-- `write_files_bulk` handler: phase 1 touches `last_used` and takes the
root; every decoded `(path, content)` pair is written in one blocking
task, per-file failures are collected as `(path, error)` entries, and the
response is `{success: errors.is_empty(), errors}`. -/
def write_files_bulk (reg : Registry) (id : String)
    (files : List (String × FileData)) (now : Nat) :
    Except HErr (Bool × List (String × String)) × Registry :=
  match lookupA reg id with
  | none => (Except.error (404, "Session not found"), reg)
  | some s =>
      let reg' := touchSession reg id now
      let errors := files.foldl (fun acc p =>
        match write_file_in_sandbox s.sandbox_root p.1 p.2 with
        | Except.error e => acc ++ [(p.1, e)]
        | Except.ok _ => acc) []
      (Except.ok (errors.isEmpty, errors), reg')

/-! ### Registry operation traces

Every registry mutation the program performs is one of the handler
functions above (or a critical section thereof).  `Op` enumerates them;
`applyOps` folds a trace into the registry state reachable from the empty
initial map.  Interleavings of the phased handlers are covered because a
trace may place other operations between a handler's phase 1
(`bgPhase1`) and its writeback (`bgWriteback`). -/

inductive Op where
  | create (id root : String) (env : Env) (domain : Option String) (now : Nat)
  | del (id : String)
  | getOp (id : String) (now : Nat)
  | listOp (now : Nat)
  | setEnvOp (id : String) (e : Env) (now : Nat)
  | setCwdOp (id c : String) (now : Nat)
  | runFg (id : String) (req : RunRequest) (now : Nat)
  | readFileOp (id path : String) (now : Nat) (hfs : HostFS)
  | listFilesOp (id path : String) (now : Nat) (hls : HostLS)
  | writeFileOp (id path : String) (content : FileData) (now : Nat)
  | bgPhase1 (id : String) (now : Nat)
  | bgWriteback (id : String) (pid port : Nat)
  | killBg (id : String) (now : Nat) (killOk : Nat → Bool)
  | statusOp (id : String) (alive : Nat → Bool) (log : String)
  | previewOp (domain : Option String) (host : String) (now : Nat)
  | reap (now : Nat)

/-- The registry transition of one operation, in terms of the handler
definitions. -/
def applyOp (op : Op) (reg : Registry) : Registry :=
  match op with
  | .create id root env domain now => (create_session reg id root env domain now).2
  | .del id => (delete_session reg id).2
  | .getOp id now => (get_session reg id now).2
  | .listOp now => (list_sessions reg now).2
  | .setEnvOp id e now => (set_env reg id e now).2
  | .setCwdOp id c now => (set_cwd reg id c now).2
  | .runFg id req now => (run_in_session reg id req now).2
  | .readFileOp id path now hfs => (read_file reg id path now hfs).2
  | .listFilesOp id path now hls => (list_files reg id path now hls).2
  | .writeFileOp id path content now => (write_file reg id path content now).2
  | .bgPhase1 id now =>
      match lookupA reg id with
      | none => reg
      | some _ => touchSession reg id now
  | .bgWriteback id pid port => bg_record reg id pid port
  | .killBg id now killOk => (kill_background reg id now killOk).2
  | .statusOp id alive log => (background_status reg id alive log).2
  | .previewOp domain host now => (preview_proxy domain reg host now).2
  | .reap now => cleanup_expired_sessions reg now

/-- Registry state after executing a trace (most recent operation first
applied last): `applyOps [opₙ, …, op₁] = opₙ ∘ … ∘ op₁` on the empty
initial registry of `AppState::new`. -/
def applyOps : List Op → Registry
  | [] => []
  | op :: rest => applyOp op (applyOps rest)

/-! ### Supporting lemmas -/

theorem lookupA_extendEnv (req : Env) (base : Env) (k : String)
    (hnd : (req.map Prod.fst).Nodup) :
    lookupA (extendEnv base req) k =
      (match lookupA req k with
       | some v => some v
       | none => lookupA base k) := by
  induction req generalizing base with
  | nil => simp [extendEnv, lookupA]
  | cons p rest ih =>
      obtain ⟨k0, v0⟩ := p
      rw [List.map_cons, List.nodup_cons] at hnd
      have hstep : extendEnv base ((k0, v0) :: rest) = extendEnv (insertA base k0 v0) rest := rfl
      rw [hstep, ih _ hnd.2]
      by_cases hk : k0 = k
      · subst hk
        have hnone : lookupA rest k0 = none := lookupA_eq_none_of_notMem _ _ hnd.1
        simp [lookupA, hnone, lookupA_insertA_self]
      · simp [lookupA, hk, lookupA_insertA_ne _ _ _ _ (fun he => hk he.symm)]

theorem str_data_ext (a b : String) (h : a.data = b.data) : a = b := by
  cases a
  cases b
  exact congrArg String.mk h

theorem data_append (a b : String) : (a ++ b).data = a.data ++ b.data := by
  cases a
  cases b
  rfl

theorem mk_data (a : String) : String.mk a.data = a := by
  cases a
  rfl

theorem str_append_assoc (a b c : String) : (a ++ b) ++ c = a ++ (b ++ c) := by
  refine str_data_ext _ _ ?_
  simp [data_append]

theorem take_len_append {α : Type} (l₁ l₂ : List α) : (l₁ ++ l₂).take l₁.length = l₁ := by
  induction l₁ with
  | nil => simp
  | cons x xs ih => simp [ih]

theorem drop_len_append {α : Type} (l₁ l₂ : List α) : (l₁ ++ l₂).drop l₁.length = l₂ := by
  induction l₁ with
  | nil => simp
  | cons x xs ih => simp [ih]

theorem strip_host_suffix_append (a b : String) :
    strip_host_suffix (a ++ b) b = some a := by
  have hd : (a ++ b).data = a.data ++ b.data := data_append a b
  have hlen : (a.data ++ b.data).length - b.data.length = a.data.length := by
    simp [List.length_append]
  rw [strip_host_suffix, hd, hlen, if_pos, take_len_append, mk_data]
  exact ⟨by simp [List.length_append], drop_len_append a.data b.data⟩

/-! ### Status invariant machinery (claim C10) -/

/-- Every session in the registry has status `Running`. -/
def AllRunning (reg : Registry) : Prop :=
  ∀ p ∈ reg, p.2.status = SessionStatus.Running

theorem allRunning_updateA (reg : Registry) (id : String) (f : Session → Session)
    (hf : ∀ s, (f s).status = s.status) (h : AllRunning reg) :
    AllRunning (updateA reg id f) := by
  intro p hp
  rcases mem_updateA reg id f p hp with hp' | ⟨v, hv, rfl⟩
  · exact h p hp'
  · rw [hf v]
    exact h (id, v) hv

theorem allRunning_touch (reg : Registry) (id : String) (now : Nat)
    (h : AllRunning reg) : AllRunning (touchSession reg id now) :=
  allRunning_updateA reg id _ (fun _ => rfl) h

theorem allRunning_removeA (reg : Registry) (id : String) (h : AllRunning reg) :
    AllRunning (removeA reg id) :=
  fun p hp => h p (mem_removeA reg id p hp)

theorem allRunning_applyOp (op : Op) (reg : Registry) (h : AllRunning reg) :
    AllRunning (applyOp op reg) := by
  cases op with
  | create id root env domain now =>
      intro p hp
      simp only [applyOp, create_session] at hp
      rcases mem_insertA _ _ _ _ hp with rfl | hp'
      · rfl
      · exact h p hp'
  | del id =>
      simp only [applyOp, delete_session]
      cases hl : lookupA reg id with
      | none => exact h
      | some s => exact allRunning_removeA reg id h
  | getOp id now =>
      simp only [applyOp, get_session]
      cases hl : lookupA reg id with
      | none => exact h
      | some s => exact h
  | listOp now => exact h
  | setEnvOp id e now =>
      simp only [applyOp, set_env]
      cases hl : lookupA reg id with
      | none => exact h
      | some s => exact allRunning_updateA reg id _ (fun _ => rfl) h
  | setCwdOp id c now =>
      simp only [applyOp, set_cwd]
      cases hl : lookupA reg id with
      | none => exact h
      | some s => exact allRunning_updateA reg id _ (fun _ => rfl) h
  | runFg id req now =>
      simp only [applyOp, run_in_session]
      cases hl : lookupA reg id with
      | none => exact h
      | some s => exact allRunning_touch reg id now h
  | readFileOp id path now hfs =>
      simp only [applyOp, read_file]
      split
      · exact h
      · split
        · exact allRunning_touch reg id now h
        · exact allRunning_touch reg id now h
  | listFilesOp id path now hls =>
      simp only [applyOp, list_files]
      split
      · exact h
      · split
        · exact allRunning_touch reg id now h
        · exact allRunning_touch reg id now h
  | writeFileOp id path content now =>
      simp only [applyOp, write_file]
      split
      · exact h
      · split
        · exact allRunning_touch reg id now h
        · exact allRunning_touch reg id now h
  | bgPhase1 id now =>
      simp only [applyOp]
      cases hl : lookupA reg id with
      | none => exact h
      | some s => exact allRunning_touch reg id now h
  | bgWriteback id pid port =>
      simp only [applyOp, bg_record]
      cases hl : lookupA reg id with
      | none => exact h
      | some s => exact allRunning_updateA reg id _ (fun _ => rfl) h
  | killBg id now killOk =>
      simp only [applyOp, kill_background]
      cases hl : lookupA reg id with
      | none => exact h
      | some s => exact allRunning_updateA reg id _ (fun _ => rfl) h
  | statusOp id alive log =>
      simp only [applyOp, background_status]
      cases hl : lookupA reg id with
      | none => exact h
      | some s => exact h
  | previewOp domain host now =>
      simp only [applyOp, preview_proxy]
      split
      · exact h
      · split
        · exact h
        · split
          · exact h
          · exact allRunning_touch reg _ now h
  | reap now =>
      intro p hp
      simp only [applyOp, cleanup_expired_sessions] at hp
      exact h p (List.mem_of_mem_filter hp)

theorem allRunning_applyOps (ops : List Op) : AllRunning (applyOps ops) := by
  induction ops with
  | nil => intro p hp; simp [applyOps] at hp
  | cons op rest ih => exact allRunning_applyOp op (applyOps rest) ih

/-! ### Concrete data used by the witness theorems -/

def sampleSession : Session :=
  { id := "a"
    sandbox_root := "/sandboxes/a"
    env := [("X", "1")]
    cwd := "/"
    created_at := 0
    last_used := 0
    preview_url := none
    ports := [10000]
    status := SessionStatus.Running
    background_pids := [7, 8] }

def sampleReg : Registry := [("a", sampleSession)]

/-! ### Claim theorems -/

/-- C1: for every session and every relative path whose resolution against
the session's sandbox root escapes that root, the file operations
`read_file` and `list_files` (and `write_file`) return an error (404 for
the reads and listing, 500 for the write, all carrying the `PathEscape`
failure of the sandbox layer) and never file contents or a listing. -/
theorem c1_path_escape_rejected (reg : Registry) (id path : String) (s : Session)
    (now : Nat) (hfs : HostFS) (hls : HostLS) (content : FileData)
    (hs : lookupA reg id = some s) (hesc : resolve_in_sandbox path = none) :
    (read_file reg id path now hfs).1 = Except.error (404, "PathEscape") ∧
    (list_files reg id path now hls).1 = Except.error (404, "PathEscape") ∧
    (write_file reg id path content now).1 = Except.error (500, "PathEscape") := by
  simp [read_file, list_files, write_file, read_file_in_sandbox,
    list_files_in_sandbox, write_file_in_sandbox, hs, hesc]

/-- Witness for C1 at the escaping path `../etc/passwd` in a registry
holding `sampleSession`. -/
theorem c1_path_escape_rejected_witness :
    (lookupA sampleReg "a" = some sampleSession ∧
      resolve_in_sandbox "../etc/passwd" = none) ∧
    ((read_file sampleReg "a" "../etc/passwd" 5 (fun _ => none)).1 =
        Except.error (404, "PathEscape") ∧
      (list_files sampleReg "a" "../etc/passwd" 5 (fun _ => none)).1 =
        Except.error (404, "PathEscape") ∧
      (write_file sampleReg "a" "../etc/passwd" [104] 5).1 =
        Except.error (500, "PathEscape")) :=
  ⟨⟨by decide, by decide⟩,
   c1_path_escape_rejected sampleReg "a" "../etc/passwd" sampleSession 5
     (fun _ => none) (fun _ => none) [104] (by decide) (by decide)⟩

/-- C2 counterexample: `allocate_port` is `fetch_add` on an `AtomicU16`,
which wraps: call 55535 (0-based) returns 65535 but call 55536 returns 0,
below the base 10000, so the returned ports are neither strictly
increasing nor always at least the base. -/
theorem c2_port_wrap_counterexample :
    (allocate_port (portCounterAfter 55535)).1 = 65535 ∧
    (allocate_port (portCounterAfter 55536)).1 = 0 ∧
    ¬ PORT_RANGE_START ≤ (allocate_port (portCounterAfter 55536)).1 := by
  norm_num [allocate_port, portCounterAfter_eq, PORT_RANGE_START]

/-- C2 amended: `allocate_port` returns the current counter value and
increments it by one modulo 2^16; for the first 55536 calls of a process
(before the `u16` counter wraps) the returned ports are strictly
increasing and never below the base 10000. -/
theorem c2_ports_monotone_before_wrap (s j k : Nat) (hjk : j < k) (hk : k < 55536) :
    (allocate_port s).1 = s ∧
    (allocate_port s).2 = (s + 1) % 65536 ∧
    (allocate_port (portCounterAfter j)).1 < (allocate_port (portCounterAfter k)).1 ∧
    PORT_RANGE_START ≤ (allocate_port (portCounterAfter j)).1 ∧
    PORT_RANGE_START ≤ (allocate_port (portCounterAfter k)).1 := by
  refine ⟨rfl, rfl, ?_, ?_, ?_⟩ <;>
    simp only [allocate_port, portCounterAfter_eq, PORT_RANGE_START] <;> omega

/-- Witness for the amended C2 at the first two calls. -/
theorem c2_ports_monotone_before_wrap_witness :
    ((0 : Nat) < 1 ∧ (1 : Nat) < 55536) ∧
    ((allocate_port 10000).1 = 10000 ∧
      (allocate_port 10000).2 = (10000 + 1) % 65536 ∧
      (allocate_port (portCounterAfter 0)).1 < (allocate_port (portCounterAfter 1)).1 ∧
      PORT_RANGE_START ≤ (allocate_port (portCounterAfter 0)).1 ∧
      PORT_RANGE_START ≤ (allocate_port (portCounterAfter 1)).1) :=
  ⟨⟨by decide, by decide⟩,
   c2_ports_monotone_before_wrap 10000 0 1 (by decide) (by decide)⟩

/-- C9 counterexample: the `fsize` default is 1048576 KiB, which is
2^30 bytes (1 GiB), not the claimed 1 MiB (2^20 bytes). -/
theorem c9_fsize_default_counterexample :
    default_fsize * 1024 ≠ 1024 * 1024 := by decide

/-- C9 amended: the foreground-run defaults denote 300 s of time, 2 GiB
of memory, 1 GiB (not 1 MiB) of maximum file size, and 256 open
descriptors. -/
theorem c9_defaults_denote :
    default_time = 300 * 1000 ∧
    default_mem * 1024 = 2 * (1024 * 1024 * 1024) ∧
    default_fsize * 1024 = 1024 * 1024 * 1024 ∧
    default_nofile = 256 := by decide

/-- The port chosen for a background run: the caller-supplied port when
non-zero, the freshly allocated one otherwise. -/
def bgPort (req : BackgroundRunRequest) (np : Nat) : Nat :=
  if req.port = 0 then np else req.port

/-- The merged-and-injected environment of a background run. -/
def bgEnv (s : Session) (req : BackgroundRunRequest) (port : Nat) : Env :=
  insertA (insertA (extendEnv s.env req.env) "VITE_PORT" (toString port))
    "PORT" (toString port)

/-- The `RunConfig` a background run hands to the sandbox layer. -/
def bgConfig (s : Session) (req : BackgroundRunRequest) (port : Nat) : RunConfig :=
  { command := req.command
    time_ms := 0
    mem_kb := 0
    fsize_kb := 0
    nofile := 0
    env := bgEnv s req port
    cwd := effective_cwd req.cwd s.cwd }

/-- Closed form of `run_background` when the session is found in phase 1. -/
theorem run_background_eq (reg : Registry) (id : String) (s : Session)
    (req : BackgroundRunRequest) (now np pid : Nat) (interfere : Registry → Registry)
    (hs : lookupA reg id = some s) :
    run_background reg id req now np pid interfere =
      (Except.ok ((pid, bgPort req np, s.preview_url), bgConfig s req (bgPort req np)),
       bg_record (interfere (touchSession reg id now)) id pid (bgPort req np),
       if req.port = 0 then (np + 1) % 65536 else np) := by
  simp only [run_background, hs]
  by_cases hp : req.port = 0 <;>
    simp [hp, allocate_port, bgPort, bgConfig, bgEnv]

/-- C3 counterexample: with the session removed between the blocking
phase and the writeback, `run_background` does not return `NotFound`: it
still reports success. -/
theorem c3_writeback_missing_counterexample :
    lookupA (removeA (touchSession sampleReg "a" 5) "a") "a" = none ∧
    (run_background sampleReg "a" { command := ["npm"] } 5 10000 42
        (fun r => removeA r "a")).1.isOk = true := by decide

/-- C3 amended: when the session has been removed between the blocking
phase and the phase-3 writeback, `run_background` skips the registry
update and still returns success (the pid/port response), leaving the
registry as the interference left it; it does not return `NotFound`. -/
theorem c3_bg_writeback_tolerates_missing (reg : Registry) (id : String) (s : Session)
    (req : BackgroundRunRequest) (now np pid : Nat) (interfere : Registry → Registry)
    (hs : lookupA reg id = some s)
    (hgone : lookupA (interfere (touchSession reg id now)) id = none) :
    (run_background reg id req now np pid interfere).1.isOk = true ∧
    (run_background reg id req now np pid interfere).2.1 =
      interfere (touchSession reg id now) := by
  rw [run_background_eq reg id s req now np pid interfere hs]
  exact ⟨rfl, by simp [bg_record, hgone]⟩

/-- Witness for the amended C3: concrete registry, session removed by the
interference, success returned and no writeback. -/
theorem c3_bg_writeback_tolerates_missing_witness :
    (lookupA sampleReg "a" = some sampleSession ∧
      lookupA ((fun r => removeA r "a") (touchSession sampleReg "a" 5)) "a" = none) ∧
    ((run_background sampleReg "a" { command := ["node"], port := 0 } 5 10000 42
          (fun r => removeA r "a")).1.isOk = true ∧
      (run_background sampleReg "a" { command := ["node"], port := 0 } 5 10000 42
          (fun r => removeA r "a")).2.1 =
        (fun r => removeA r "a") (touchSession sampleReg "a" 5)) :=
  ⟨⟨by decide, by decide⟩,
   c3_bg_writeback_tolerates_missing sampleReg "a" sampleSession
     { command := ["node"], port := 0 } 5 10000 42 (fun r => removeA r "a")
     (by decide) (by decide)⟩

/-- C4 counterexample: `get_session` finds the session yet leaves the
registry — and in particular `last_used` — untouched: at time 5 the
looked-up session still carries `last_used = 0`. -/
theorem c4_get_session_no_touch_counterexample :
    (get_session sampleReg "a" 5).1.isOk = true ∧
    (get_session sampleReg "a" 5).2 = sampleReg ∧
    lookupA (get_session sampleReg "a" 5).2 "a" = some sampleSession ∧
    sampleSession.last_used = 0 ∧ ¬ sampleSession.last_used = 5 := by decide

/-- C4 amended: every handler that mutates under the write lock
(`set_env`, `set_cwd`, `run_in_session`, the three file handlers,
`run_background`, `kill_background`) and the preview-proxy lookup update
the session's `last_used` to the current time; the purely observational
handlers `get_session`, `list_sessions` and `background_status` take the
read lock and leave the registry — hence `last_used` — unchanged. -/
theorem c4_last_used_discipline (reg : Registry) (id : String) (s : Session) (now : Nat)
    (e : Env) (c : String) (req : RunRequest) (breq : BackgroundRunRequest)
    (path d : String) (content : FileData) (files : List (String × FileData))
    (hfs : HostFS) (hls : HostLS)
    (killOk alive : Nat → Bool) (log : String) (np pid : Nat)
    (hs : lookupA reg id = some s) :
    (lookupA (set_env reg id e now).2 id).map Session.last_used = some now ∧
    (lookupA (set_cwd reg id c now).2 id).map Session.last_used = some now ∧
    (lookupA (run_in_session reg id req now).2 id).map Session.last_used = some now ∧
    (lookupA (read_file reg id path now hfs).2 id).map Session.last_used = some now ∧
    (lookupA (list_files reg id path now hls).2 id).map Session.last_used = some now ∧
    (lookupA (write_file reg id path content now).2 id).map Session.last_used = some now ∧
    (lookupA (write_files_bulk reg id files now).2 id).map Session.last_used = some now ∧
    (lookupA (run_background reg id breq now np pid (fun r => r)).2.1 id).map
        Session.last_used = some now ∧
    (lookupA (kill_background reg id now killOk).2 id).map Session.last_used = some now ∧
    (lookupA (preview_proxy (some d) reg (id ++ "." ++ d) now).2 id).map
        Session.last_used = some now ∧
    (get_session reg id now).2 = reg ∧
    (list_sessions reg now).2 = reg ∧
    (background_status reg id alive log).2 = reg := by
  have hstrip : strip_host_suffix (id ++ "." ++ d) ("." ++ d) = some id := by
    rw [str_append_assoc]
    exact strip_host_suffix_append id ("." ++ d)
  refine ⟨?_, ?_, ?_, ?_, ?_, ?_, ?_, ?_, ?_, ?_, ?_, ?_, ?_⟩
  · simp [set_env, hs, lookupA_updateA_self]
  · simp [set_cwd, hs, lookupA_updateA_self]
  · simp [run_in_session, hs, touchSession, lookupA_updateA_self]
  · simp only [read_file, hs]
    cases hr : read_file_in_sandbox hfs s.sandbox_root path <;>
      simp [hr, touchSession, lookupA_updateA_self, hs]
  · simp only [list_files, hs]
    cases hr : list_files_in_sandbox hls s.sandbox_root path <;>
      simp [hr, touchSession, lookupA_updateA_self, hs]
  · simp only [write_file, hs]
    cases hr : write_file_in_sandbox s.sandbox_root path content <;>
      simp [hr, touchSession, lookupA_updateA_self, hs]
  · simp [write_files_bulk, hs, touchSession, lookupA_updateA_self]
  · rw [run_background_eq reg id s breq now np pid (fun r => r) hs]
    simp [bg_record, touchSession, lookupA_updateA_self, hs]
  · simp [kill_background, hs, lookupA_updateA_self]
  · simp [preview_proxy, hstrip, hs, touchSession, lookupA_updateA_self]
  · simp [get_session, hs]
  · simp [list_sessions]
  · simp [background_status, hs]

/-- Witness for the amended C4 on the sample registry at time 5. -/
theorem c4_last_used_discipline_witness :
    (lookupA sampleReg "a" = some sampleSession) ∧
    ((lookupA (set_env sampleReg "a" [("K", "V")] 5).2 "a").map Session.last_used = some 5 ∧
      (lookupA (set_cwd sampleReg "a" "/w" 5).2 "a").map Session.last_used = some 5 ∧
      (lookupA (run_in_session sampleReg "a" { command := ["x"] } 5).2 "a").map
          Session.last_used = some 5 ∧
      (lookupA (read_file sampleReg "a" "f.txt" 5 (fun _ => none)).2 "a").map
          Session.last_used = some 5 ∧
      (lookupA (list_files sampleReg "a" "f.txt" 5 (fun _ => none)).2 "a").map
          Session.last_used = some 5 ∧
      (lookupA (write_file sampleReg "a" "f.txt" [] 5).2 "a").map
          Session.last_used = some 5 ∧
      (lookupA (write_files_bulk sampleReg "a" [("g.txt", [104])] 5).2 "a").map
          Session.last_used = some 5 ∧
      (lookupA (run_background sampleReg "a" { command := ["y"] } 5 10000 42
            (fun r => r)).2.1 "a").map Session.last_used = some 5 ∧
      (lookupA (kill_background sampleReg "a" 5 (fun _ => true)).2 "a").map
          Session.last_used = some 5 ∧
      (lookupA (preview_proxy (some "preview.test") sampleReg
            ("a" ++ "." ++ "preview.test") 5).2 "a").map Session.last_used = some 5 ∧
      (get_session sampleReg "a" 5).2 = sampleReg ∧
      (list_sessions sampleReg 5).2 = sampleReg ∧
      (background_status sampleReg "a" (fun _ => true) "").2 = sampleReg) :=
  ⟨by decide,
   c4_last_used_discipline sampleReg "a" sampleSession 5 [("K", "V")] "/w"
     { command := ["x"] } { command := ["y"] } "f.txt" "preview.test" []
     [("g.txt", [104])] (fun _ => none) (fun _ => none) (fun _ => true)
     (fun _ => true) "" 10000 42 (by decide)⟩

/-- C5: the preview proxy routes a request with Host
`<session-id>.<preview_domain>` to `127.0.0.1:<port>` where `port` is the
first element of the session's `ports` (5173 when empty); it responds 404
when no preview domain is configured, when the Host header does not end
in `.<preview_domain>`, or when the stripped prefix names no live
session. -/
theorem c5_preview_routing (dom sid host : String) (reg : Registry) (s : Session)
    (now : Nat) (hhost : host = sid ++ "." ++ dom) :
    (preview_proxy none reg host now).1 = Except.error (404, "Not found") ∧
    (lookupA reg sid = some s →
      (preview_proxy (some dom) reg host now).1 =
        Except.ok ("127.0.0.1:" ++ toString (s.ports.headD 5173), s.ports.headD 5173)) ∧
    (lookupA reg sid = none →
      (preview_proxy (some dom) reg host now).1 =
        Except.error (404, "Session " ++ sid ++ " not found")) ∧
    (∀ h2 : String, strip_host_suffix h2 ("." ++ dom) = none →
      (preview_proxy (some dom) reg h2 now).1 = Except.error (404, "Not found")) := by
  have hstrip : strip_host_suffix host ("." ++ dom) = some sid := by
    rw [hhost, str_append_assoc]
    exact strip_host_suffix_append sid ("." ++ dom)
  refine ⟨rfl, ?_, ?_, ?_⟩
  · intro hsid
    simp [preview_proxy, hstrip, hsid]
  · intro hsid
    simp [preview_proxy, hstrip, hsid]
  · intro h2 hs2
    simp [preview_proxy, hs2]

/-- Witness for C5: host `a.preview.test` routed to the first registered
port 10000 of `sampleSession`; missing session and bad host produce 404. -/
theorem c5_preview_routing_witness :
    ("a.preview.test" = "a" ++ "." ++ "preview.test") ∧
    ((preview_proxy none sampleReg "a.preview.test" 5).1 =
        Except.error (404, "Not found") ∧
      (lookupA sampleReg "a" = some sampleSession →
        (preview_proxy (some "preview.test") sampleReg "a.preview.test" 5).1 =
          Except.ok ("127.0.0.1:" ++ toString (sampleSession.ports.headD 5173),
            sampleSession.ports.headD 5173)) ∧
      (lookupA sampleReg "a" = none →
        (preview_proxy (some "preview.test") sampleReg "a.preview.test" 5).1 =
          Except.error (404, "Session " ++ "a" ++ " not found")) ∧
      (∀ h2 : String, strip_host_suffix h2 ("." ++ "preview.test") = none →
        (preview_proxy (some "preview.test") sampleReg h2 5).1 =
          Except.error (404, "Not found"))) :=
  ⟨by decide,
   c5_preview_routing "preview.test" "a" "a.preview.test" sampleReg sampleSession 5
     (by decide)⟩

/-- C6: for every background run the config env is the session env
overridden per-key by the request env, after which `PORT` and `VITE_PORT`
are both set to the chosen port (the caller's port when non-zero, the
allocated one when the caller sent 0), taking precedence over any
`PORT`/`VITE_PORT` in the merged env. -/
theorem c6_background_env_injection (reg : Registry) (id : String) (s : Session)
    (req : BackgroundRunRequest) (now np pid : Nat) (interfere : Registry → Registry)
    (hs : lookupA reg id = some s)
    (hnd : (req.env.map Prod.fst).Nodup) :
    ∃ cfg purl,
      (run_background reg id req now np pid interfere).1 =
        Except.ok ((pid, (if req.port = 0 then np else req.port), purl), cfg) ∧
      lookupA cfg.env "PORT" =
        some (toString (if req.port = 0 then np else req.port)) ∧
      lookupA cfg.env "VITE_PORT" =
        some (toString (if req.port = 0 then np else req.port)) ∧
      ∀ k, k ≠ "PORT" → k ≠ "VITE_PORT" →
        lookupA cfg.env k =
          (match lookupA req.env k with
           | some v => some v
           | none => lookupA s.env k) := by
  refine ⟨bgConfig s req (bgPort req np), s.preview_url, ?_, ?_, ?_, ?_⟩
  · rw [run_background_eq reg id s req now np pid interfere hs, bgPort]
  · simp only [bgConfig, bgEnv, bgPort]
    exact lookupA_insertA_self _ _ _
  · simp only [bgConfig, bgEnv, bgPort]
    rw [lookupA_insertA_ne _ _ _ _ (by decide)]
    exact lookupA_insertA_self _ _ _
  · intro k hkp hkv
    simp only [bgConfig, bgEnv]
    rw [lookupA_insertA_ne _ _ _ _ hkp, lookupA_insertA_ne _ _ _ _ hkv]
    exact lookupA_extendEnv req.env s.env k hnd

/-- Witness for C6: auto-allocated port 10000 overrides the request's own
`PORT` entry while other request keys override session keys. -/
theorem c6_background_env_injection_witness :
    (lookupA sampleReg "a" = some sampleSession ∧
      (([("PORT", "9"), ("X", "2")] : Env).map Prod.fst).Nodup) ∧
    (∃ cfg purl,
      (run_background sampleReg "a"
          { command := ["z"], port := 0, env := [("PORT", "9"), ("X", "2")] }
          5 10000 42 (fun r => r)).1 =
        Except.ok ((42, (if (0 : Nat) = 0 then 10000 else 0), purl), cfg) ∧
      lookupA cfg.env "PORT" = some (toString (if (0 : Nat) = 0 then 10000 else 0)) ∧
      lookupA cfg.env "VITE_PORT" =
        some (toString (if (0 : Nat) = 0 then 10000 else 0)) ∧
      ∀ k, k ≠ "PORT" → k ≠ "VITE_PORT" →
        lookupA cfg.env k =
          (match lookupA [("PORT", "9"), ("X", "2")] k with
           | some v => some v
           | none => lookupA sampleSession.env k)) :=
  ⟨⟨by decide, by decide⟩,
   c6_background_env_injection sampleReg "a" sampleSession
     { command := ["z"], port := 0, env := [("PORT", "9"), ("X", "2")] }
     5 10000 42 (fun r => r) (by decide) (by decide)⟩

/-- C7: for `run_in_session` and `run_background` alike, the effective
working directory is the request cwd whenever it differs from `"/"`, and
the session's stored cwd when the request cwd is `"/"`. -/
theorem c7_cwd_inheritance (reg : Registry) (id : String) (s : Session)
    (req : RunRequest) (breq : BackgroundRunRequest) (now np pid : Nat)
    (interfere : Registry → Registry) (hs : lookupA reg id = some s) :
    (effective_cwd req.cwd s.cwd = if req.cwd = "/" then s.cwd else req.cwd) ∧
    (∃ root cfg, (run_in_session reg id req now).1 = Except.ok (root, cfg) ∧
      cfg.cwd = if req.cwd = "/" then s.cwd else req.cwd) ∧
    (∃ res cfg,
      (run_background reg id breq now np pid interfere).1 = Except.ok (res, cfg) ∧
      cfg.cwd = if breq.cwd = "/" then s.cwd else breq.cwd) := by
  have hecwd : ∀ r c : String, effective_cwd r c = if r = "/" then c else r := by
    intro r c
    by_cases h : r = "/" <;> simp [effective_cwd, h]
  refine ⟨hecwd req.cwd s.cwd, ?_, ?_⟩
  · refine ⟨s.sandbox_root,
      { command := req.command
        time_ms := req.time
        mem_kb := req.mem
        fsize_kb := req.fsize
        nofile := req.nofile
        env := extendEnv s.env req.env
        cwd := effective_cwd req.cwd s.cwd }, ?_, ?_⟩
    · simp only [run_in_session, hs]
    · exact hecwd req.cwd s.cwd
  · refine ⟨(pid, bgPort breq np, s.preview_url), bgConfig s breq (bgPort breq np), ?_, ?_⟩
    · rw [run_background_eq reg id s breq now np pid interfere hs]
    · exact hecwd breq.cwd s.cwd

/-- Witness for C7: request cwd `"/"` inherits the session cwd. -/
theorem c7_cwd_inheritance_witness :
    (lookupA sampleReg "a" = some sampleSession) ∧
    ((effective_cwd ({ command := ["x"] } : RunRequest).cwd sampleSession.cwd =
        if ({ command := ["x"] } : RunRequest).cwd = "/" then sampleSession.cwd
        else ({ command := ["x"] } : RunRequest).cwd) ∧
      (∃ root cfg,
        (run_in_session sampleReg "a" { command := ["x"] } 5).1 = Except.ok (root, cfg) ∧
        cfg.cwd = if ({ command := ["x"] } : RunRequest).cwd = "/" then sampleSession.cwd
          else ({ command := ["x"] } : RunRequest).cwd) ∧
      (∃ res cfg,
        (run_background sampleReg "a" { command := ["y"], cwd := "/app" } 5 10000 42
            (fun r => r)).1 = Except.ok (res, cfg) ∧
        cfg.cwd = if ({ command := ["y"], cwd := "/app" } : BackgroundRunRequest).cwd = "/"
          then sampleSession.cwd
          else ({ command := ["y"], cwd := "/app" } : BackgroundRunRequest).cwd)) :=
  ⟨by decide,
   c7_cwd_inheritance sampleReg "a" sampleSession { command := ["x"] }
     { command := ["y"], cwd := "/app" } 5 10000 42 (fun r => r) (by decide)⟩

/-- C8: a successful `kill_background` empties the session's
`background_pids` and `ports` regardless of signal outcomes; the returned
killed list is exactly the prior pids for which SIGKILL delivery
succeeded, and the total is the prior pid count. -/
theorem c8_kill_background_drains (reg : Registry) (id : String) (s : Session)
    (now : Nat) (killOk : Nat → Bool) (hs : lookupA reg id = some s) :
    (kill_background reg id now killOk).1 =
      Except.ok (s.background_pids.filter killOk, s.background_pids.length) ∧
    ∃ s', lookupA (kill_background reg id now killOk).2 id = some s' ∧
      s'.background_pids = [] ∧ s'.ports = [] := by
  constructor
  · simp [kill_background, hs]
  · exact ⟨{ s with last_used := now, background_pids := [], ports := [] },
      by simp [kill_background, hs, lookupA_updateA_self], rfl, rfl⟩

/-- Witness for C8: prior pids `[7, 8]`, only 7 accepts the signal; the
response is `killed = [7]`, `total = 2`, and both lists are drained. -/
theorem c8_kill_background_drains_witness :
    (lookupA sampleReg "a" = some sampleSession) ∧
    ((kill_background sampleReg "a" 5 (fun p => p == 7)).1 =
        Except.ok (sampleSession.background_pids.filter (fun p => p == 7),
          sampleSession.background_pids.length) ∧
      ∃ s', lookupA (kill_background sampleReg "a" 5 (fun p => p == 7)).2 "a" = some s' ∧
        s'.background_pids = [] ∧ s'.ports = []) :=
  ⟨by decide,
   c8_kill_background_drains sampleReg "a" sampleSession 5 (fun p => p == 7)
     (by decide)⟩

/-- C10: in every reachable registry state every live session has status
`Running` — `create_session` initializes it and no operation ever writes
another status — so the reported status string is always `"running"`. -/
theorem c10_status_always_running (ops : List Op) (id : String) (s : Session)
    (h : lookupA (applyOps ops) id = some s) :
    s.status = SessionStatus.Running ∧ statusStr s.status = "running" := by
  have hrun := allRunning_applyOps ops (id, s) (mem_of_lookupA _ _ _ h)
  exact ⟨hrun, by rw [hrun]; rfl⟩

/-- The session record produced by `create_session "a"` in the C10
witness trace. -/
def createdSessionA : Session :=
  { id := "a"
    sandbox_root := "/sb/a"
    env := []
    cwd := "/"
    created_at := 0
    last_used := 0
    preview_url := none
    ports := []
    status := SessionStatus.Running
    background_pids := [] }

/-- Witness for C10 on the one-operation trace that creates session `a`. -/
theorem c10_status_always_running_witness :
    lookupA (applyOps [Op.create "a" "/sb/a" [] none 0]) "a" = some createdSessionA ∧
    (createdSessionA.status = SessionStatus.Running ∧
      statusStr createdSessionA.status = "running") :=
  ⟨by decide,
   c10_status_always_running [Op.create "a" "/sb/a" [] none 0] "a" createdSessionA
     (by decide)⟩

end OpenComputer
